import Mathlib

/-
Verification of the draggable bottom-sheet component (components/ui/bottom-sheet.tsx).

The component is a single-threaded, event-driven state machine.  We embed it
shallowly: machine floating-point numbers become rationals, the continuously
interpolating animated value becomes a pending-animation record that an
explicit settle event commits, and each gesture / imperative-API handler
becomes a pure function on the sheet state.  An interrupted animation (a new
animation started while one is pending) never fires its completion callback,
matching the `if (finished)` guard in `animateTo`.
-/

namespace BottomSheet

/-- Which completion callback a pending animation carries: the haptic pulse
fired by `snapToIndex`, or the close callback fired by `close`. -/
inductive AnimCb
| haptic
| closeCb
deriving DecidableEq

/-- A pending animation: its target offset and its completion callback. -/
structure Anim where
  target : ℚ
  cb : AnimCb
deriving DecidableEq

/-- Immutable per-instance configuration: the derived snap offsets
(`snapHeights` in the source), the screen height, and the pan-down-to-close
policy flag. -/
structure Config where
  snapHeights : List ℚ
  screenHeight : ℚ
  enablePanDownToClose : Bool
deriving DecidableEq

/-- The mutable sheet state: `visible`, `currentSnapIndex`, the committed
offset `lastOffset`, the live animated value `translateY`, the re-entrancy
guard `isPanning`, the pending 50 ms mount timer queued by `open`, the pending
animation, and counters for the lifecycle callbacks `onOpen` / `onClose`. -/
structure SheetState where
  visible : Bool
  currentSnapIndex : ℕ
  lastOffset : ℚ
  translateY : ℚ
  isPanning : Bool
  pendingOpenTimer : Bool
  anim : Option Anim
  onOpenCount : ℕ
  onCloseCount : ℕ
deriving DecidableEq

/-- `snapPoints.map((point) => SCREEN_HEIGHT * (1 - point))` — the derived
snap offsets. -/
def mkSnapHeights (snapPoints : List ℚ) (screenHeight : ℚ) : List ℚ :=
  snapPoints.map (fun point => screenHeight * (1 - point))

/-- The loop body of `findNearestSnap`: scan the remaining offsets, keeping
the running minimum distance and its index, updating only on a strict
improvement (`dist < minDist`). -/
def findNearestSnapAux (position : ℚ) : List ℚ → ℕ → ℚ → ℕ → ℕ
| [], _, _, nearest => nearest
| height :: rest, index, minDist, nearest =>
  if |position - height| < minDist then
    findNearestSnapAux position rest (index + 1) |position - height| index
  else
    findNearestSnapAux position rest (index + 1) minDist nearest

/-- `findNearestSnap` from the source: `nearest` starts at 0, `minDist`
starts at `|position - snapHeights[0]|`, and the forEach loop updates both
on strict improvement.  On an empty list the loop body never runs and the
initial 0 is returned (in JS the initial distance is NaN, every comparison
against it is false, so `nearest` likewise stays 0). -/
def findNearestSnap (snapHeights : List ℚ) (position : ℚ) : ℕ :=
  findNearestSnapAux position snapHeights 0 |position - snapHeights.headD 0| 0

/-- `snapToIndex`: guarded by `index >= 0 && index < snapHeights.length`;
inside the guard it commits the new snap index immediately and starts an
animation to `snapHeights[index]` whose completion fires the haptic pulse. -/
def snapToIndex (cfg : Config) (index : ℤ) (s : SheetState) : SheetState :=
  if 0 ≤ index ∧ index < (cfg.snapHeights.length : ℤ) then
    { s with currentSnapIndex := index.toNat,
             anim := some ⟨cfg.snapHeights.getD index.toNat 0, AnimCb.haptic⟩ }
  else s

/-- `open`: sets `visible` and queues the 50 ms timer; the snap and the open
callback happen when the timer fires. -/
def openSheet (s : SheetState) : SheetState :=
  { s with visible := true, pendingOpenTimer := true }

/-- The body of the `setTimeout` queued by `open`: `snapToIndex(1)` followed
immediately by `onOpen?.()` — the open callback fires when the animation
starts, not when it settles. -/
def openTimerFire (cfg : Config) (s : SheetState) : SheetState :=
  if s.pendingOpenTimer then
    let s1 := snapToIndex cfg 1 { s with pendingOpenTimer := false }
    { s1 with onOpenCount := s1.onOpenCount + 1 }
  else s

/-- `close`: starts an animation to `SCREEN_HEIGHT` whose completion clears
`visible` and fires `onClose`.  Starting it replaces any pending animation,
whose own callback then never fires. -/
def closeSheet (cfg : Config) (s : SheetState) : SheetState :=
  { s with anim := some ⟨cfg.screenHeight, AnimCb.closeCb⟩ }

/-- Settling of the pending animation: commit the target into `translateY`
and `lastOffset`, then run the completion callback (`closeCb` clears
`visible` and fires `onClose`; `haptic` is not observable in this model). -/
def animSettle (s : SheetState) : SheetState :=
  match s.anim with
  | none => s
  | some a =>
    let s1 := { s with translateY := a.target, lastOffset := a.target, anim := none }
    match a.cb with
    | AnimCb.haptic => s1
    | AnimCb.closeCb => { s1 with visible := false, onCloseCount := s1.onCloseCount + 1 }

/-- `onPanResponderGrant`: ignored when already panning; otherwise raises the
guard, stops the pending animation (its callback never fires) and captures
the live value into `lastOffset`. -/
def panGrant (s : SheetState) : SheetState :=
  if s.isPanning then s
  else { s with isPanning := true, lastOffset := s.translateY, anim := none }

/-- The move-listener of `onPanResponderMove`: candidate
`newY = lastOffset + dy`; half-strength resistance above `snapHeights[0]`,
one-fifth-strength resistance below the screen height when
pan-down-to-close is enabled, otherwise the candidate unclamped.  When the
offset list is empty, the JS comparison `newY < snapHeights[0]` is a
comparison against undefined (NaN) and is false, so only the remaining two
branches apply. -/
def panMove (cfg : Config) (dy : ℚ) (s : SheetState) : SheetState :=
  let newY := s.lastOffset + dy
  match cfg.snapHeights.head? with
  | some h0 =>
    if newY < h0 then
      { s with translateY := h0 - (h0 - newY) * 0.5 }
    else if newY > cfg.screenHeight ∧ cfg.enablePanDownToClose = true then
      { s with translateY := cfg.screenHeight + (newY - cfg.screenHeight) * 0.2 }
    else
      { s with translateY := newY }
  | none =>
    if newY > cfg.screenHeight ∧ cfg.enablePanDownToClose = true then
      { s with translateY := cfg.screenHeight + (newY - cfg.screenHeight) * 0.2 }
    else
      { s with translateY := newY }

/-- A release gesture: cumulative vertical delta `dy` and vertical release
velocity `vy`. -/
structure Gesture where
  dy : ℚ
  vy : ℚ
deriving DecidableEq

/-- The pan responder is created exactly once, on the first render, inside
`useRef(PanResponder.create({...})).current`, so every gesture handler is a
first-render closure.  Refs (`lastOffset`, `isPanning`, `translateY`) and
the stable state setter work through that closure, but the plain state
variable `currentSnapIndex` read by the release handler's flick branch is
the first render's `const`, frozen at its `useState(1)` initial value: the
handler always sees 1, whatever the live snap index is at release time. -/
def staleSnapIndex : ℕ := 1

/-- `onPanResponderRelease`: clear the panning guard; fast-downward dismissal
(`enablePanDownToClose && dy > 200 && vy > 0.7`) closes and returns; a fast
flick (`|vy| > 0.7`) moves one index in the velocity direction starting from
the closure-captured `staleSnapIndex` (see its doc comment — not the live
snap index), clamped to `[0, length - 1]`; a slow release snaps to the
offset nearest to `lastOffset + dy` (both read through live refs). -/
def panRelease (cfg : Config) (g : Gesture) (s : SheetState) : SheetState :=
  let s0 : SheetState := { s with isPanning := false }
  let currentY := s0.lastOffset + g.dy
  let velocity := g.vy
  if cfg.enablePanDownToClose = true ∧ g.dy > 200 ∧ velocity > 0.7 then
    closeSheet cfg s0
  else if |velocity| > 0.7 then
    let direction : ℤ := if velocity > 0 then 1 else -1
    let nextIndex : ℤ :=
      min (max ((staleSnapIndex : ℤ) + direction) 0) ((cfg.snapHeights.length : ℤ) - 1)
    snapToIndex cfg nextIndex s0
  else
    snapToIndex cfg (findNearestSnap cfg.snapHeights currentY : ℤ) s0

/-- `onPanResponderTerminate`: clear the panning guard and snap to the offset
nearest to the last committed offset. -/
def panTerminate (cfg : Config) (s : SheetState) : SheetState :=
  let s0 : SheetState := { s with isPanning := false }
  snapToIndex cfg (findNearestSnap cfg.snapHeights s0.lastOffset : ℤ) s0

/-- The discrete inputs of the event loop: imperative API calls, the mount
timer, the gesture callbacks, and animation settling. -/
inductive Event
| callOpen
| openTimer
| callClose
| callSnapToIndex (index : ℤ)
| panGrantEv
| panMoveEv (dy : ℚ)
| panReleaseEv (g : Gesture)
| panTerminateEv
| animSettleEv
deriving DecidableEq

/-- One step of the event loop. -/
def step (cfg : Config) (s : SheetState) : Event → SheetState
| Event.callOpen => openSheet s
| Event.openTimer => openTimerFire cfg s
| Event.callClose => closeSheet cfg s
| Event.callSnapToIndex i => snapToIndex cfg i s
| Event.panGrantEv => panGrant s
| Event.panMoveEv dy => panMove cfg dy s
| Event.panReleaseEv g => panRelease cfg g s
| Event.panTerminateEv => panTerminate cfg s
| Event.animSettleEv => animSettle s

/-- Run a list of events from a state. -/
def run (cfg : Config) : List Event → SheetState → SheetState
| [], s => s
| e :: es, s => run cfg es (step cfg s e)

/-- The initial state of a freshly constructed sheet: hidden, snap index 1,
offset at the fully-off-screen value. -/
def initState (screenHeight : ℚ) : SheetState :=
  { visible := false
    currentSnapIndex := 1
    lastOffset := screenHeight
    translateY := screenHeight
    isPanning := false
    pendingOpenTimer := false
    anim := none
    onOpenCount := 0
    onCloseCount := 0 }

/-- The default configuration of the component: snap fractions
`[0.3, 0.6, 0.9]`, pan-down-to-close enabled; we fix a screen height of
800 for concrete evaluations. -/
def defaultConfig : Config :=
  { snapHeights := mkSnapHeights [0.3, 0.6, 0.9] 800
    screenHeight := 800
    enablePanDownToClose := true }

/-- A configuration built from an empty snap-fraction list: the source
performs no validation, so the derived offset list is simply empty. -/
def emptyConfig : Config :=
  { snapHeights := mkSnapHeights [] 800
    screenHeight := 800
    enablePanDownToClose := true }

/-! ## Correctness of `findNearestSnap`

The scan keeps the running minimum distance `md` attained at index `nr`;
updating only on a strict improvement means the final index is the first
index attaining the overall minimum distance. -/

theorem findNearestSnapAux_spec (pos : ℚ) (rest : List ℚ) :
    ∀ (pre : List ℚ) (md : ℚ) (nr : ℕ),
      nr < pre.length →
      md = |pos - pre.getD nr 0| →
      (∀ j, j < pre.length → md ≤ |pos - pre.getD j 0|) →
      (∀ j, j < nr → md < |pos - pre.getD j 0|) →
      findNearestSnapAux pos rest pre.length md nr < (pre ++ rest).length ∧
      (∀ j, j < (pre ++ rest).length →
        |pos - (pre ++ rest).getD (findNearestSnapAux pos rest pre.length md nr) 0| ≤
          |pos - (pre ++ rest).getD j 0|) ∧
      (∀ j, j < findNearestSnapAux pos rest pre.length md nr →
        |pos - (pre ++ rest).getD (findNearestSnapAux pos rest pre.length md nr) 0| <
          |pos - (pre ++ rest).getD j 0|) := by
  induction rest with
  | nil =>
    intro pre md nr hnr hmd hmin hstrict
    simp only [findNearestSnapAux, List.append_nil]
    refine ⟨hnr, ?_, ?_⟩
    · intro j hj
      rw [← hmd]
      exact hmin j hj
    · intro j hj
      rw [← hmd]
      exact hstrict j hj
  | cons h t ih =>
    intro pre md nr hnr hmd hmin hstrict
    have hsplit : pre ++ h :: t = (pre ++ [h]) ++ t := by simp
    have ghd : (pre ++ [h]).getD pre.length 0 = h := by
      rw [List.getD_append_right _ _ _ _ (le_refl _), Nat.sub_self]
      rfl
    have gpre : ∀ j, j < pre.length → (pre ++ [h]).getD j 0 = pre.getD j 0 :=
      fun j hj => List.getD_append _ _ _ _ hj
    have hlen2 : (pre ++ [h]).length = pre.length + 1 := by simp
    rw [hsplit]
    rw [findNearestSnapAux]
    by_cases hc : |pos - h| < md
    · rw [if_pos hc]
      have hres := ih (pre ++ [h]) |pos - h| pre.length
        (by simp)
        (by rw [ghd])
        (by
          intro j hj
          rw [hlen2] at hj
          rcases Nat.lt_succ_iff_lt_or_eq.mp hj with hj' | hj'
          · rw [gpre j hj']
            exact le_of_lt (lt_of_lt_of_le hc (hmin j hj'))
          · subst hj'
            rw [ghd])
        (by
          intro j hj
          rw [gpre j hj]
          exact lt_of_lt_of_le hc (hmin j hj))
      rw [hlen2] at hres
      exact hres
    · rw [if_neg hc]
      have hmdle : md ≤ |pos - h| := not_lt.mp hc
      have hres := ih (pre ++ [h]) md nr
        (by simpa using Nat.lt_succ_of_lt hnr)
        (by rw [gpre nr hnr]; exact hmd)
        (by
          intro j hj
          rw [hlen2] at hj
          rcases Nat.lt_succ_iff_lt_or_eq.mp hj with hj' | hj'
          · rw [gpre j hj']
            exact hmin j hj'
          · subst hj'
            rw [ghd]
            exact hmdle)
        (by
          intro j hj
          rw [gpre j (lt_trans hj hnr)]
          exact hstrict j hj)
      rw [hlen2] at hres
      exact hres

/-- Specification of `findNearestSnap` on a non-empty offset list: the result
is an in-range index whose offset is nearest to `position` by absolute
distance, and every index strictly before the result is strictly farther
(hence the result is the lowest index attaining the minimum). -/
theorem findNearestSnap_spec (snapHeights : List ℚ) (pos : ℚ) (hne : snapHeights ≠ []) :
    findNearestSnap snapHeights pos < snapHeights.length ∧
    (∀ j, j < snapHeights.length →
      |pos - snapHeights.getD (findNearestSnap snapHeights pos) 0| ≤
        |pos - snapHeights.getD j 0|) ∧
    (∀ j, j < findNearestSnap snapHeights pos →
      |pos - snapHeights.getD (findNearestSnap snapHeights pos) 0| <
        |pos - snapHeights.getD j 0|) := by
  obtain ⟨h0, t, rfl⟩ := List.exists_cons_of_ne_nil hne
  have hunfold : findNearestSnap (h0 :: t) pos = findNearestSnapAux pos t 1 |pos - h0| 0 := by
    rw [findNearestSnap]
    simp only [List.headD_cons]
    rw [findNearestSnapAux, if_neg (lt_irrefl _)]
  rw [hunfold]
  have hres := findNearestSnapAux_spec pos t [h0] |pos - h0| 0
    (by simp)
    (by simp)
    (by
      intro j hj
      have hj0 : j = 0 := Nat.lt_one_iff.mp (by simpa using hj)
      subst hj0
      simp)
    (by
      intro j hj
      exact absurd hj (Nat.not_lt_zero j))
  simpa using hres

/-- Helper: inside its range guard, `snapToIndex` commits the index and starts
the haptic-callback animation to the corresponding offset. -/
theorem snapToIndex_inRange (cfg : Config) (s : SheetState) (n : ℕ)
    (h : n < cfg.snapHeights.length) :
    snapToIndex cfg (n : ℤ) s =
      { s with currentSnapIndex := n,
               anim := some ⟨cfg.snapHeights.getD n 0, AnimCb.haptic⟩ } := by
  rw [snapToIndex, if_pos ⟨Int.natCast_nonneg n, by exact_mod_cast h⟩]
  simp

/-! ## Claim theorems -/

/-- Claim C1 (code bug): the claim says a fast flick routes relative to the
sheet's snap index at the moment of release, but the release handler is a
first-render closure reading `currentSnapIndex` frozen at 1
(see `staleSnapIndex`).  Concretely: the sheet is settled at live snap
index 2 (first conjunct), and an upward flick (`dy = 0`, `vy = -1`, with
the fast-dismiss branch not applying) then animates to
`clamp(1 - 1) = 0` (second conjunct) — while the claim requires
`clamp(2 - 1) = 1`. -/
theorem fastFlickStaleIndexBug :
    (animSettle (snapToIndex defaultConfig 2 (initState 800))).currentSnapIndex = 2 ∧
    (panRelease defaultConfig ⟨0, -1⟩
        (animSettle (snapToIndex defaultConfig 2 (initState 800)))).currentSnapIndex = 0 := by
  constructor
  · decide
  · rw [panRelease]
    simp only
    rw [if_neg (by norm_num), if_pos (by rw [abs_of_nonpos] <;> norm_num)]
    decide

/-- Claim C2: with pan-down-to-close enabled, a release with drag distance
greater than 200 and velocity greater than 0.7 closes the sheet (starts the
close animation to the fully-off-screen offset, whose settling hides the
sheet), regardless of the current snap index, taking priority over the other
release branches. -/
theorem fastDismissCloses (cfg : Config) (s : SheetState) (g : Gesture)
    (hpdc : cfg.enablePanDownToClose = true) (hdy : 200 < g.dy) (hvy : 0.7 < g.vy) :
    (panRelease cfg g s).anim = some ⟨cfg.screenHeight, AnimCb.closeCb⟩ ∧
    (panRelease cfg g s).currentSnapIndex = s.currentSnapIndex ∧
    (animSettle (panRelease cfg g s)).visible = false := by
  rw [panRelease]
  simp only
  rw [if_pos ⟨hpdc, hdy, hvy⟩]
  exact ⟨rfl, rfl, rfl⟩

/-- Claim C3: on a slow release (`|velocity| ≤ 0.7`), the sheet animates to
the snap index nearest by absolute distance to the unresisted position
`lastCommittedOffset + dragDeltaY`, and on an exact tie of distances the
lowest index wins. -/
theorem slowReleaseNearestSnap (cfg : Config) (s : SheetState) (g : Gesture)
    (hslow : |g.vy| ≤ 0.7) (hne : cfg.snapHeights ≠ []) :
    (panRelease cfg g s).currentSnapIndex =
      findNearestSnap cfg.snapHeights (s.lastOffset + g.dy) ∧
    (panRelease cfg g s).anim =
      some ⟨cfg.snapHeights.getD (findNearestSnap cfg.snapHeights (s.lastOffset + g.dy)) 0,
        AnimCb.haptic⟩ ∧
    (∀ j, j < cfg.snapHeights.length →
      |(s.lastOffset + g.dy) -
          cfg.snapHeights.getD (findNearestSnap cfg.snapHeights (s.lastOffset + g.dy)) 0| ≤
        |(s.lastOffset + g.dy) - cfg.snapHeights.getD j 0|) ∧
    (∀ j, j < cfg.snapHeights.length →
      |(s.lastOffset + g.dy) - cfg.snapHeights.getD j 0| =
        |(s.lastOffset + g.dy) -
          cfg.snapHeights.getD (findNearestSnap cfg.snapHeights (s.lastOffset + g.dy)) 0| →
      findNearestSnap cfg.snapHeights (s.lastOffset + g.dy) ≤ j) := by
  obtain ⟨hrange, hmin, hstrict⟩ := findNearestSnap_spec cfg.snapHeights (s.lastOffset + g.dy) hne
  have hb1 : ¬(cfg.enablePanDownToClose = true ∧ g.dy > 200 ∧ g.vy > 0.7) := by
    rintro ⟨-, -, h3⟩
    exact absurd h3 (not_lt.mpr (le_trans (le_abs_self g.vy) hslow))
  have hb2 : ¬(0.7 < |g.vy|) := not_lt.mpr hslow
  rw [panRelease]
  simp only
  rw [if_neg hb1, if_neg hb2]
  rw [show ({ s with isPanning := false } : SheetState).lastOffset = s.lastOffset from rfl]
  rw [snapToIndex_inRange cfg _ _ hrange]
  refine ⟨rfl, rfl, hmin, ?_⟩
  intro j hj heq
  by_contra hlt
  have := hstrict j (not_le.mp hlt)
  rw [heq] at this
  exact lt_irrefl _ this

/-- Claim C4: on a drag-move event with candidate offset
`c = lastCommittedOffset + dragDeltaY`: below the most-expanded offset the
applied offset is the half-strength-resisted value, past the screen height
with pan-down-to-close enabled it is the one-fifth-strength-resisted value,
and otherwise it is exactly `c`, unclamped.  (`h0 ≤ screenHeight` holds for
every configuration derived from fractions in `(0, 1]`, and makes the two
resisted regions disjoint.) -/
theorem moveEdgeResistance (cfg : Config) (s : SheetState) (dy h0 : ℚ)
    (hh : cfg.snapHeights.head? = some h0) (hvalid : h0 ≤ cfg.screenHeight) :
    ((s.lastOffset + dy < h0) →
      (panMove cfg dy s).translateY = h0 - (h0 - (s.lastOffset + dy)) * 0.5) ∧
    ((cfg.screenHeight < s.lastOffset + dy ∧ cfg.enablePanDownToClose = true) →
      (panMove cfg dy s).translateY =
        cfg.screenHeight + ((s.lastOffset + dy) - cfg.screenHeight) * 0.2) ∧
    ((¬ s.lastOffset + dy < h0) →
      (¬ (cfg.screenHeight < s.lastOffset + dy ∧ cfg.enablePanDownToClose = true)) →
      (panMove cfg dy s).translateY = s.lastOffset + dy) := by
  rw [panMove]
  simp only [hh]
  refine ⟨?_, ?_, ?_⟩
  · intro hc
    rw [if_pos hc]
  · rintro ⟨h1, h2⟩
    have hnc : ¬ (s.lastOffset + dy < h0) := not_lt.mpr (le_trans hvalid (le_of_lt h1))
    rw [if_neg hnc, if_pos ⟨h1, h2⟩]
  · intro h1 h2
    rw [if_neg h1, if_neg h2]

/-- Claim C6: `snapToIndex` with an index outside `[0, snapOffsets.length)`
is a silent no-op: the state — including `currentSnapIndex`, the offsets and
both callback counters — is returned unchanged and no animation starts. -/
theorem snapToIndexOutOfRange (cfg : Config) (s : SheetState) (i : ℤ)
    (h : i < 0 ∨ (cfg.snapHeights.length : ℤ) ≤ i) :
    snapToIndex cfg i s = s := by
  rw [snapToIndex, if_neg]
  rintro ⟨h1, h2⟩
  rcases h with h | h
  · exact absurd h1 (not_le.mpr h)
  · exact absurd h2 (not_lt.mpr h)

/-- Claim C7: for a sheet with at least two snap points, once `open()` fully
settles (the mount timer fired and the snap animation completed), the sheet
is visible and its snap index is 1. -/
theorem openSettlesToMiddle (cfg : Config) (s : SheetState)
    (h2 : 2 ≤ cfg.snapHeights.length) :
    (run cfg [Event.callOpen, Event.openTimer, Event.animSettleEv] s).visible = true ∧
    (run cfg [Event.callOpen, Event.openTimer, Event.animSettleEv] s).currentSnapIndex = 1 := by
  have h1len : (1 : ℤ) < (cfg.snapHeights.length : ℤ) := by exact_mod_cast h2
  simp only [run, step, openSheet, openTimerFire, snapToIndex]
  rw [if_pos trivial, if_pos ⟨by norm_num, h1len⟩]
  exact ⟨rfl, rfl⟩

/-- Claim C8: for a strictly increasing snap-fraction list with every
fraction in `(0, 1]` (and a positive screen height), the derived offset list
has the same length and is strictly decreasing with every offset
nonnegative. -/
theorem snapHeightsOrdered (snapPoints : List ℚ) (screenHeight : ℚ)
    (hpos : 0 < screenHeight)
    (hinc : snapPoints.Chain' (· < ·))
    (hrange : ∀ f ∈ snapPoints, 0 < f ∧ f ≤ 1) :
    (mkSnapHeights snapPoints screenHeight).length = snapPoints.length ∧
    (mkSnapHeights snapPoints screenHeight).Chain' (· > ·) ∧
    (∀ o ∈ mkSnapHeights snapPoints screenHeight, 0 ≤ o) := by
  refine ⟨by simp [mkSnapHeights], ?_, ?_⟩
  · rw [mkSnapHeights, List.chain'_map]
    refine hinc.imp ?_
    intro a b hab
    have h1 : 1 - b < 1 - a := by linarith
    exact mul_lt_mul_of_pos_left h1 hpos
  · intro o ho
    rw [mkSnapHeights] at ho
    simp only [List.mem_map] at ho
    obtain ⟨f, hf, rfl⟩ := ho
    have h1 : f ≤ 1 := (hrange f hf).2
    have h2 : (0 : ℚ) ≤ 1 - f := by linarith
    exact mul_nonneg (le_of_lt hpos) h2

/-- Claim C10: on a non-empty offset list, `findNearestSnap` always returns
an in-range index, so the release and terminate handlers always hand
`snapToIndex` an index its range guard accepts. -/
theorem findNearestSnapInRange (cfg : Config) (s : SheetState) (pos : ℚ)
    (hne : cfg.snapHeights ≠ []) :
    findNearestSnap cfg.snapHeights pos < cfg.snapHeights.length ∧
    (snapToIndex cfg (findNearestSnap cfg.snapHeights pos : ℤ) s).currentSnapIndex =
      findNearestSnap cfg.snapHeights pos ∧
    (panTerminate cfg s).currentSnapIndex = findNearestSnap cfg.snapHeights s.lastOffset := by
  have h1 := (findNearestSnap_spec cfg.snapHeights pos hne).1
  have h2 := (findNearestSnap_spec cfg.snapHeights s.lastOffset hne).1
  refine ⟨h1, ?_, ?_⟩
  · rw [snapToIndex_inRange cfg s _ h1]
  · rw [panTerminate]
    simp only
    rw [show ({ s with isPanning := false } : SheetState).lastOffset = s.lastOffset from rfl]
    rw [snapToIndex_inRange cfg _ _ h2]

/-! ## Lifecycle-callback accounting -/

theorem onCloseCount_snapToIndex (cfg : Config) (i : ℤ) (s : SheetState) :
    (snapToIndex cfg i s).onCloseCount = s.onCloseCount := by
  rw [snapToIndex]
  split_ifs <;> rfl

theorem onCloseCount_panMove (cfg : Config) (dy : ℚ) (s : SheetState) :
    (panMove cfg dy s).onCloseCount = s.onCloseCount := by
  rw [panMove]
  rcases cfg.snapHeights.head? with _ | h0 <;> simp only <;> split_ifs <;> rfl

theorem onCloseCount_panRelease (cfg : Config) (g : Gesture) (s : SheetState) :
    (panRelease cfg g s).onCloseCount = s.onCloseCount := by
  rw [panRelease]
  simp only
  split_ifs <;> first
  | rfl
  | rw [onCloseCount_snapToIndex]

theorem onCloseCount_openTimerFire (cfg : Config) (s : SheetState) :
    (openTimerFire cfg s).onCloseCount = s.onCloseCount := by
  rw [openTimerFire]
  split_ifs
  · show (snapToIndex cfg 1 { s with pendingOpenTimer := false }).onCloseCount = s.onCloseCount
    rw [onCloseCount_snapToIndex]
  · rfl

/-- Claim C5 counterexample: after `open()` and the firing of its mount
timer, the open callback has already fired (`onOpenCount = 1`) while the
open animation is still pending (`anim ≠ none`), so `onOpen` does not wait
for the open animation to settle as the claim states. -/
theorem lifecycleCounterexample :
    (run defaultConfig [Event.callOpen, Event.openTimer] (initState 800)).onOpenCount = 1 ∧
    (run defaultConfig [Event.callOpen, Event.openTimer] (initState 800)).anim ≠ none := by
  decide

/-- Claim C5 (amended): `onClose` fires exactly once per close cycle and only
when a close animation settles — in particular calling `close()` twice in
succession (before settling) fires it once, the first animation being
interrupted; `onOpen` also fires exactly once per open cycle, but at the
moment the open animation starts (when the post-mount timer fires), not
after that animation settles. -/
theorem lifecycleAmended (cfg : Config) (s t : SheetState) (e : Event)
    (h2 : 2 ≤ cfg.snapHeights.length) (hpend : t.pendingOpenTimer = true) :
    (run cfg [Event.callClose, Event.callClose, Event.animSettleEv] s).onCloseCount
      = s.onCloseCount + 1 ∧
    ((step cfg s e).onCloseCount ≠ s.onCloseCount →
      e = Event.animSettleEv ∧
      (∃ tgt, s.anim = some ⟨tgt, AnimCb.closeCb⟩) ∧
      (step cfg s e).onCloseCount = s.onCloseCount + 1) ∧
    ((step cfg t Event.openTimer).onOpenCount = t.onOpenCount + 1 ∧
      (step cfg t Event.openTimer).anim =
        some ⟨cfg.snapHeights.getD 1 0, AnimCb.haptic⟩) := by
  have h1len : (1 : ℤ) < (cfg.snapHeights.length : ℤ) := by exact_mod_cast h2
  refine ⟨rfl, ?_, ?_⟩
  · intro hne
    cases e with
    | callOpen => exact absurd rfl hne
    | openTimer => exact absurd (onCloseCount_openTimerFire cfg s) hne
    | callClose => exact absurd rfl hne
    | callSnapToIndex i => exact absurd (onCloseCount_snapToIndex cfg i s) hne
    | panGrantEv =>
      exfalso
      apply hne
      show (panGrant s).onCloseCount = s.onCloseCount
      rw [panGrant]
      split_ifs <;> rfl
    | panMoveEv dy => exact absurd (onCloseCount_panMove cfg dy s) hne
    | panReleaseEv g => exact absurd (onCloseCount_panRelease cfg g s) hne
    | panTerminateEv =>
      exfalso
      apply hne
      show (panTerminate cfg s).onCloseCount = s.onCloseCount
      rw [panTerminate]
      simp only
      rw [onCloseCount_snapToIndex]
    | animSettleEv =>
      obtain ⟨v, ci, lo, ty, ip, pot, an, oc, cc⟩ := s
      rcases an with _ | ⟨tgt, cb⟩
      · exact absurd rfl hne
      · cases cb with
        | haptic => exact absurd rfl hne
        | closeCb => exact ⟨rfl, ⟨tgt, rfl⟩, rfl⟩
  · show (openTimerFire cfg t).onOpenCount = t.onOpenCount + 1 ∧
      (openTimerFire cfg t).anim = some ⟨cfg.snapHeights.getD 1 0, AnimCb.haptic⟩
    rw [openTimerFire, if_pos hpend, snapToIndex, if_pos ⟨by norm_num, h1len⟩]
    exact ⟨rfl, rfl⟩

/-- Helper: with an empty offset list, the range guard of `snapToIndex`
rejects every index. -/
theorem snapToIndex_empty (cfg : Config) (hempty : cfg.snapHeights = [])
    (i : ℤ) (s : SheetState) : snapToIndex cfg i s = s := by
  rw [snapToIndex, if_neg]
  rintro ⟨h1, h2⟩
  rw [hempty] at h2
  simp at h2
  omega

/-- Claim C9 counterexample: the source performs no validation of the
snap-fraction list.  Constructing with the empty list succeeds and yields an
empty offset list, and the first slow-release gesture runs to completion —
`findNearestSnap` is invoked against the empty set (returning index 0, since
in JS every comparison against the NaN initial distance is false) and
`snapToIndex` silently rejects it — so no precondition violation is raised
at construction or at first gesture. -/
theorem emptyConfigCounterexample :
    mkSnapHeights [] 800 = [] ∧
    findNearestSnap emptyConfig.snapHeights 300 = 0 ∧
    panRelease emptyConfig ⟨10, 0⟩ (initState 800) = initState 800 := by
  refine ⟨rfl, rfl, ?_⟩
  rw [panRelease]
  simp only
  rw [if_neg (by norm_num), if_neg (by norm_num), snapToIndex_empty emptyConfig rfl]
  rfl

/-- Claim C9 (amended): construction with an empty snap-fraction list does
not fail fast: it produces an empty snap-offset list without any
precondition check, and on the first slow-release gesture `findNearestSnap`
is invoked against the empty set, returning index 0, which `snapToIndex`'s
range guard silently rejects, leaving the sheet state unchanged (apart from
clearing the panning flag). -/
theorem emptyConfigNoFailFast (sh pos : ℚ) (cfg : Config) (s : SheetState) (g : Gesture)
    (hempty : cfg.snapHeights = []) (hslow : |g.vy| ≤ 0.7) :
    mkSnapHeights [] sh = [] ∧
    findNearestSnap cfg.snapHeights pos = 0 ∧
    panRelease cfg g s = { s with isPanning := false } := by
  refine ⟨rfl, by rw [hempty]; rfl, ?_⟩
  have hb1 : ¬(cfg.enablePanDownToClose = true ∧ g.dy > 200 ∧ g.vy > 0.7) := by
    rintro ⟨-, -, h3⟩
    exact absurd h3 (not_lt.mpr (le_trans (le_abs_self g.vy) hslow))
  have hb2 : ¬(0.7 < |g.vy|) := not_lt.mpr hslow
  rw [panRelease]
  simp only
  rw [if_neg hb1, if_neg hb2, snapToIndex_empty cfg hempty]

/-! ## Concrete witnesses -/

/-- Witness for C2: `dy = 250`, `vy = 0.9` with pan-down-to-close enabled
starts the close animation. -/
theorem fastDismissClosesWitness :
    (200 : ℚ) < 250 ∧ (0.7 : ℚ) < 0.9 ∧
    (panRelease defaultConfig ⟨250, 0.9⟩ (initState 800)).anim =
      some ⟨defaultConfig.screenHeight, AnimCb.closeCb⟩ :=
  ⟨by norm_num, by norm_num,
    (fastDismissCloses defaultConfig (initState 800) ⟨250, 0.9⟩ rfl (by norm_num)
      (by norm_num)).1⟩

/-- Witness for C3: a slow release (`vy = 0.5`) from offset 800 with
`dy = -300` settles at the nearest snap index. -/
theorem slowReleaseNearestSnapWitness :
    |(0.5 : ℚ)| ≤ 0.7 ∧
    (panRelease defaultConfig ⟨-300, 0.5⟩ (initState 800)).currentSnapIndex =
      findNearestSnap defaultConfig.snapHeights ((initState 800).lastOffset + (-300)) := by
  refine ⟨by rw [abs_of_nonneg] <;> norm_num, ?_⟩
  exact (slowReleaseNearestSnap defaultConfig (initState 800) ⟨-300, 0.5⟩
    (by rw [abs_of_nonneg] <;> norm_num) (by decide)).1

/-- Witness for C4: a candidate offset of 40, which is 520 above the
most-expanded offset 560, is applied with half-strength resistance. -/
theorem moveEdgeResistanceWitness :
    defaultConfig.snapHeights.head? = some 560 ∧
    (panMove defaultConfig (-760) (initState 800)).translateY =
      560 - (560 - ((initState 800).lastOffset + (-760))) * 0.5 := by
  have hh : defaultConfig.snapHeights.head? = some 560 := by
    simp [defaultConfig, mkSnapHeights]
    norm_num
  refine ⟨hh, ?_⟩
  exact (moveEdgeResistance defaultConfig (initState 800) (-760) 560 hh
    (by norm_num [defaultConfig])).1 (by norm_num [initState])

/-- Witness for C5 (amended): two successive `close()` calls followed by one
settle fire `onClose` exactly once, and the timer of an opened sheet fires
`onOpen` while starting (not settling) the snap animation. -/
theorem lifecycleAmendedWitness :
    2 ≤ defaultConfig.snapHeights.length ∧
    (run defaultConfig [Event.callClose, Event.callClose, Event.animSettleEv]
        (initState 800)).onCloseCount = (initState 800).onCloseCount + 1 ∧
    (step defaultConfig (openSheet (initState 800)) Event.openTimer).onOpenCount =
      (openSheet (initState 800)).onOpenCount + 1 := by
  have h := lifecycleAmended defaultConfig (initState 800) (openSheet (initState 800))
    Event.callOpen (by decide) (by decide)
  exact ⟨by decide, h.1, h.2.2.1⟩

/-- Witness for C6: index 5 is out of range for the three default offsets and
`snapToIndex` leaves the state untouched. -/
theorem snapToIndexOutOfRangeWitness :
    (defaultConfig.snapHeights.length : ℤ) ≤ 5 ∧
    snapToIndex defaultConfig 5 (initState 800) = initState 800 :=
  ⟨by decide, snapToIndexOutOfRange defaultConfig (initState 800) 5 (Or.inr (by decide))⟩

/-- Witness for C7: with the three default snap points, a settled `open()`
leaves the sheet visible at snap index 1. -/
theorem openSettlesToMiddleWitness :
    2 ≤ defaultConfig.snapHeights.length ∧
    (run defaultConfig [Event.callOpen, Event.openTimer, Event.animSettleEv]
        (initState 800)).visible = true ∧
    (run defaultConfig [Event.callOpen, Event.openTimer, Event.animSettleEv]
        (initState 800)).currentSnapIndex = 1 := by
  have h := openSettlesToMiddle defaultConfig (initState 800) (by decide)
  exact ⟨by decide, h.1, h.2⟩

/-- Witness for C8: the default fractions `[0.3, 0.6, 0.9]` at screen height
800 yield a strictly decreasing offset list. -/
theorem snapHeightsOrderedWitness :
    ([0.3, 0.6, 0.9] : List ℚ).Chain' (· < ·) ∧
    (mkSnapHeights [0.3, 0.6, 0.9] 800).Chain' (· > ·) := by
  have hinc : ([0.3, 0.6, 0.9] : List ℚ).Chain' (· < ·) := by
    simp only [List.chain'_cons, List.chain'_singleton, and_true]
    norm_num
  refine ⟨hinc, ?_⟩
  exact (snapHeightsOrdered [0.3, 0.6, 0.9] 800 (by norm_num) hinc
    (by
      intro f hf
      simp only [List.mem_cons, List.not_mem_nil, or_false] at hf
      rcases hf with rfl | rfl | rfl <;> norm_num)).2.1

/-- Witness for C9 (amended): the empty configuration swallows a slow
release without error. -/
theorem emptyConfigNoFailFastWitness :
    emptyConfig.snapHeights = [] ∧
    panRelease emptyConfig ⟨5, 0.1⟩ (initState 800) =
      { initState 800 with isPanning := false } := by
  refine ⟨by decide, ?_⟩
  exact (emptyConfigNoFailFast 800 0 emptyConfig (initState 800) ⟨5, 0.1⟩ (by decide)
    (by rw [abs_of_nonneg] <;> norm_num)).2.2

/-- Witness for C10: on the default offsets, the nearest index to position
500 is in range. -/
theorem findNearestSnapInRangeWitness :
    defaultConfig.snapHeights ≠ [] ∧
    findNearestSnap defaultConfig.snapHeights 500 < defaultConfig.snapHeights.length :=
  ⟨by decide, (findNearestSnapInRange defaultConfig (initState 800) 500 (by decide)).1⟩

end BottomSheet
